import Mathlib

/-!
Shallow embedding of the encryption-policy resolver from
`src/parquet/properties.h` of the parquet-cpp repository: column encryption
specs (`ColumnEncryptionProperties`), file-level encryption and decryption
properties (`FileEncryptionProperties`, `FileDecryptionProperties`), and the
key-resolution logic, together with theorems about their behaviour.

Conventions of the embedding:
* C++ `std::string` is Lean `String`; `s.empty()` is `s = ""`.
* A C++ `throw ParquetException(...)` and a failed configuration assertion
  (`DCHECK`, the debug-build validation in this code base) are both embedded
  as `Except.error`; the error kind follows the classification used by the
  surrounding documentation (`InvalidConfiguration` for configuration errors,
  and the three key-resolution failure kinds).
* `std::shared_ptr` sharing is embedded as plain value equality with the
  stored field; a null `shared_ptr` result is `Option.none`.
* The external key retriever capability and the key-material value class
  (`EncryptionProperties` from `parquet/encryption.h`, which is not part of
  this source tree) are modelled from the specification.
-/

namespace Parquet

/-- Error kinds raised by the configuration and resolution code.
`InvalidConfiguration` covers `ParquetException`s raised at configuration time
and failed configuration assertions; the other three classify the failure
modes of key resolution during decryption (`std.map.at` miss, missing
retriever, retriever miss). -/
inductive ParquetError where
  | InvalidConfiguration : String → ParquetError
  | KeyNotFound : ParquetError
  | MissingKeyRetriever : ParquetError
  | KeyRetrievalFailed : ParquetError
  deriving DecidableEq, Repr

/-- True exactly when a computation failed with `InvalidConfiguration`. -/
def isInvalidConfig {α : Type} : Except ParquetError α → Bool
  | .error (.InvalidConfiguration _) => true
  | _ => false

/-- True exactly when a computation succeeded. -/
def isOkE {α : Type} : Except ParquetError α → Bool
  | .ok _ => true
  | .error _ => false

/-- Modelled from the spec: `EncryptionKeyMaterial` (the class
`EncryptionProperties` from `parquet/encryption.h`, which is absent from this
source tree): an algorithm identifier paired with a secret key, optional key
metadata (an opaque hint used during decryption) and an AAD value. The
algorithm enum is opaque here, represented by a numeric code. The constructor
used by `properties.h` takes `(algorithm, key, key_metadata)` and leaves the
AAD empty. -/
structure EncryptionProperties where
  algorithm : Nat
  key : String
  key_metadata : String
  aad : String
  deriving DecidableEq, Repr

/-- `ColumnEncryptionProperties` (properties.h lines 43-77): declares whether
one column path is encrypted and with what key/metadata. -/
structure ColumnEncryptionProperties where
  encrypt : Bool
  path : String
  encrypted_with_footer_key : Bool
  key : String
  key_metadata : String
  deriving DecidableEq, Repr

/-- The two-argument constructor `ColumnEncryptionProperties(encrypt, path)`
(line 46): `encrypted_with_footer_key_` is initialised to `encrypt`, key and
metadata are left empty. -/
def ColumnEncryptionProperties.mkSpec (encrypt : Bool) (path : String) :
    ColumnEncryptionProperties :=
  { encrypt := encrypt, path := path, encrypted_with_footer_key := encrypt,
    key := "", key_metadata := "" }

/-- `SetEncryptionKey(key, key_metadata)` (lines 60-67). The source throws
before mutating any field, so a failing call leaves the column spec as it was;
the embedding reflects this by returning an error that carries no updated
spec. -/
def SetEncryptionKey (c : ColumnEncryptionProperties)
    (key key_metadata : String) : Except ParquetError ColumnEncryptionProperties :=
  if c.encrypt = false then
    .error (.InvalidConfiguration ("Setting key on unencrypted column: " ++ c.path))
  else if key = "" then
    .error (.InvalidConfiguration ("Null key for " ++ c.path))
  else
    .ok { c with encrypted_with_footer_key := false, key := key,
                 key_metadata := key_metadata }

/-- Little-endian four-byte rendering of a 32-bit key id, as produced by
`std::string(reinterpret_cast of a uint32, 4)` on a little-endian platform
(line 56). -/
def encodeKeyId (key_id : Nat) : String :=
  String.mk [Char.ofNat (key_id % 256), Char.ofNat (key_id / 256 % 256),
             Char.ofNat (key_id / 65536 % 256), Char.ofNat (key_id / 16777216 % 256)]

/-- Reading the four-byte blob back into the numeric key id. -/
def decodeKeyId (s : String) : Nat :=
  match s.data with
  | [a, b, c, d] => a.toNat + 256 * b.toNat + 65536 * c.toNat + 16777216 * d.toNat
  | _ => 0

/-- `SetEncryptionKey(key, key_id)` (lines 54-58): the numeric key-id variant;
a zero id yields empty metadata, a nonzero id a four-byte blob. -/
def SetEncryptionKeyId (c : ColumnEncryptionProperties) (key : String)
    (key_id : Nat) : Except ParquetError ColumnEncryptionProperties :=
  SetEncryptionKey c key (if key_id = 0 then "" else encodeKeyId key_id)

/-- `FileDecryptionProperties` (lines 79-132): a literal footer key or a key
retriever capability, an optional AAD, and a map from dotted column path to
literal column key. The retriever is modelled from the spec as a function
from opaque key metadata to an optional secret key. The `std::map` is an
association list whose lookup takes the most recently inserted binding, which
matches map-overwrite semantics observationally. -/
structure FileDecryptionProperties where
  footer_key : String
  aad : String
  column_keys : List (String × String)
  key_retriever : Option (String → Option String)

/-- The footer-key constructor (lines 81-84) with its key-length assertion. -/
def mkFileDecryptionPropertiesFromKey (footer_key : String) :
    Except ParquetError FileDecryptionProperties :=
  if footer_key.length = 16 ∨ footer_key.length = 24 ∨ footer_key.length = 32 then
    .ok { footer_key := footer_key, aad := "", column_keys := [],
          key_retriever := none }
  else
    .error (.InvalidConfiguration "footer key length must be 16, 24 or 32")

/-- The key-retriever constructor (lines 86-87). -/
def mkFileDecryptionPropertiesFromRetriever (r : String → Option String) :
    FileDecryptionProperties :=
  { footer_key := "", aad := "", column_keys := [], key_retriever := some r }

/-- `SetColumnKey(paths, key)` (lines 95-101) with its key-length assertion;
the path is taken already in canonical dotted form (`ColumnPath.ToDotString`
is an external primitive). -/
def SetColumnKey (p : FileDecryptionProperties) (path key : String) :
    Except ParquetError FileDecryptionProperties :=
  if key.length = 16 ∨ key.length = 24 ∨ key.length = 32 then
    .ok { p with column_keys := (path, key) :: p.column_keys }
  else
    .error (.InvalidConfiguration "column key length must be 16, 24 or 32")

/-- `GetColumnKey(path, key_metadata)` (lines 103-112): empty metadata goes to
the static map (`at` throws on a missing path, classified `KeyNotFound`);
non-empty metadata requires a retriever and delegates to it, a retriever miss
being `KeyRetrievalFailed`. -/
def GetColumnKey (p : FileDecryptionProperties) (path key_metadata : String) :
    Except ParquetError String :=
  if key_metadata = "" then
    match List.lookup path p.column_keys with
    | some k => .ok k
    | none => .error .KeyNotFound
  else
    match p.key_retriever with
    | none => .error .MissingKeyRetriever
    | some r =>
      match r key_metadata with
      | some k => .ok k
      | none => .error .KeyRetrievalFailed

/-- `GetFooterKey(footer_key_metadata)` (lines 114-122): the same two-path
logic with the literal footer key in place of the static map. -/
def GetFooterKey (p : FileDecryptionProperties) (footer_key_metadata : String) :
    Except ParquetError String :=
  if footer_key_metadata = "" then
    .ok p.footer_key
  else
    match p.key_retriever with
    | none => .error .MissingKeyRetriever
    | some r =>
      match r footer_key_metadata with
      | some k => .ok k
      | none => .error .KeyRetrievalFailed

/-- `FileEncryptionProperties` state (lines 364-371): footer key material, the
cached uniform-encryption flag, the column spec list and the
encrypt-the-rest flag. In the C++ source `encrypt_the_rest_` stays
uninitialised until `SetupColumns` assigns it and `columns_` default-
constructs to the empty vector; no code path consults `encrypt_the_rest_`
before `SetupColumns`. -/
structure FileEncryptionProperties where
  footer_encryption : EncryptionProperties
  uniform_encryption : Bool
  columns : List ColumnEncryptionProperties
  encrypt_the_rest : Bool
  deriving DecidableEq, Repr

/-- The validating constructor
`FileEncryptionProperties(algorithm, key, key_metadata)` (lines 254-263):
asserts the key length unconditionally, asserts the metadata length only when
the metadata is non-empty, stores the footer key material with an empty AAD
and sets `uniform_encryption_ = !key.empty()`. The constructor picks `false`
for the field the C++ leaves uninitialised. -/
def mkFileEncryptionProperties (algorithm : Nat) (key key_metadata : String) :
    Except ParquetError FileEncryptionProperties :=
  if key.length = 16 ∨ key.length = 24 ∨ key.length = 32 then
    if key_metadata = "" ∨ key_metadata.length ≤ 256 then
      .ok { footer_encryption :=
              { algorithm := algorithm, key := key, key_metadata := key_metadata,
                aad := "" },
            uniform_encryption := !(key == ""),
            columns := [],
            encrypt_the_rest := false }
    else
      .error (.InvalidConfiguration "footer key metadata longer than 256 bytes")
  else
    .error (.InvalidConfiguration "footer key length must be 16, 24 or 32")

/-- The non-empty-footer-key loop of `SetupColumns` (lines 282-289): start
from `true`, scan in input order, and stop at the first column whose key
differs from the footer key. -/
def scanUniform (footer_key : String) :
    List ColumnEncryptionProperties → Bool
  | [] => true
  | col :: rest =>
    if col.key ≠ footer_key then false else scanUniform footer_key rest

/-- The empty-footer-key loop of `SetupColumns` (lines 293-301): throws at the
first column that is marked encrypted but has an empty key, and otherwise
reports whether every column was unencrypted. -/
def scanNoFooter : List ColumnEncryptionProperties → Except ParquetError Bool
  | [] => .ok true
  | col :: rest =>
    if col.encrypt then
      if col.key = "" then
        .error (.InvalidConfiguration "Encrypt column with null footer key")
      else
        match scanNoFooter rest with
        | .ok _ => .ok false
        | .error e => .error e
    else scanNoFooter rest

/-- `SetupColumns(columns, encrypt_the_rest)` (lines 276-307). The source
assigns `encrypt_the_rest_` and `columns_` first and then branches on whether
the footer key is empty; the non-empty branch recomputes the uniform flag,
the empty branch validates the configuration and leaves the uniform flag as
it was. -/
def SetupColumns (p : FileEncryptionProperties)
    (columns : List ColumnEncryptionProperties) (encrypt_the_rest : Bool) :
    Except ParquetError FileEncryptionProperties :=
  if p.footer_encryption.key ≠ "" then
    .ok { p with columns := columns, encrypt_the_rest := encrypt_the_rest,
                 uniform_encryption := scanUniform p.footer_encryption.key columns }
  else if encrypt_the_rest then
    .error (.InvalidConfiguration "Encrypt the rest with null footer key")
  else
    match scanNoFooter columns with
    | .error e => .error e
    | .ok all_are_unencrypted =>
      if all_are_unencrypted then
        .error (.InvalidConfiguration "Footer and all columns unencrypted")
      else
        .ok { p with columns := columns, encrypt_the_rest := encrypt_the_rest }

/-- `GetColumnCryptoMetaData(path)` (lines 313-336): in uniform mode a fresh
footer-keyed spec for the path; otherwise the first listed spec with that
path, else a footer-keyed spec when `encrypt_the_rest_` is set, else an
unencrypted spec. -/
def GetColumnCryptoMetaData (p : FileEncryptionProperties) (path : String) :
    ColumnEncryptionProperties :=
  if p.uniform_encryption then
    ColumnEncryptionProperties.mkSpec true path
  else
    match p.columns.find? (fun col => col.path == path) with
    | some col => col
    | none =>
      if p.encrypt_the_rest then ColumnEncryptionProperties.mkSpec true path
      else ColumnEncryptionProperties.mkSpec false path

/-- `GetColumnEncryptionProperties(path)` (lines 338-360): in uniform mode the
footer key material itself; otherwise key material synthesised from the
footer algorithm, the listed spec's key and metadata and the footer AAD, else
the footer material when `encrypt_the_rest_` is set, else no encryption
(`nullptr`, here `none`). -/
def GetColumnEncryptionProperties (p : FileEncryptionProperties)
    (path : String) : Option EncryptionProperties :=
  if p.uniform_encryption then
    some p.footer_encryption
  else
    match p.columns.find? (fun col => col.path == path) with
    | some col =>
      some { algorithm := p.footer_encryption.algorithm, key := col.key,
             key_metadata := col.key_metadata, aad := p.footer_encryption.aad }
    | none =>
      if p.encrypt_the_rest then some p.footer_encryption else none

/-- The uniform flag of a `SetupColumns` result, when setup succeeded. -/
def uniformOf : Except ParquetError FileEncryptionProperties → Option Bool
  | .ok q => some q.uniform_encryption
  | .error _ => none

/-- Specification-side predicate: every listed column spec's key equals the
footer key exactly. -/
def allKeysEq (footer_key : String) (l : List ColumnEncryptionProperties) : Bool :=
  l.all (fun col => col.key == footer_key)

/-- Specification-side predicate: every listed column spec is unencrypted. -/
def allUnencrypted (l : List ColumnEncryptionProperties) : Bool :=
  l.all (fun col => !col.encrypt)

/-! ### Concrete fixtures used by witnesses and counterexamples -/

/-- A 16-byte (AES-128) key. -/
def k16 : String := "0123456789abcdef"

/-- A second, distinct 16-byte key. -/
def k16b : String := "ABCDEFGHIJKLMNOP"

/-- Footer key material holding `k16`. -/
def footerMaterial : EncryptionProperties :=
  { algorithm := 0, key := k16, key_metadata := "", aad := "" }

/-- A policy state with a non-empty footer key, as produced by the validating
constructor on `k16`. -/
def pUniform : FileEncryptionProperties :=
  { footer_encryption := footerMaterial, uniform_encryption := true,
    columns := [], encrypt_the_rest := false }

/-- A policy state whose footer key is empty (the state the release build of
the constructor produces for an empty key, and the state the empty-footer-key
branch of `SetupColumns` is written for). -/
def pEmptyFooter : FileEncryptionProperties :=
  { footer_encryption := { algorithm := 0, key := "", key_metadata := "", aad := "" },
    uniform_encryption := false, columns := [], encrypt_the_rest := false }

/-- An encrypted column spec that defers to the footer key: its key is unset
(empty), exactly what `ColumnEncryptionProperties(true, path)` produces. -/
def colFooterDeferred : ColumnEncryptionProperties :=
  ColumnEncryptionProperties.mkSpec true "a"

/-- An encrypted column spec carrying the footer key `k16` itself. -/
def colWithFooterKey : ColumnEncryptionProperties :=
  { encrypt := true, path := "a", encrypted_with_footer_key := false,
    key := k16, key_metadata := "" }

/-- An unencrypted column spec. -/
def colPlain : ColumnEncryptionProperties :=
  ColumnEncryptionProperties.mkSpec false "a"

/-- A non-uniform policy state listing one column with its own key `k16b`. -/
def pNonUniform : FileEncryptionProperties :=
  { footer_encryption := footerMaterial, uniform_encryption := false,
    columns := [{ encrypt := true, path := "a", encrypted_with_footer_key := false,
                  key := k16b, key_metadata := "mdA" }],
    encrypt_the_rest := false }

/-- Decryption properties with one static column key and no retriever. -/
def pDecStatic : FileDecryptionProperties :=
  { footer_key := k16, aad := "", column_keys := [("a", k16b)],
    key_retriever := none }

/-- A deterministic in-memory retriever resolving the metadata "M" to `k16b`. -/
def retrieverM : String → Option String :=
  fun md => if md = "M" then some k16b else none

/-- Decryption properties configured with `retrieverM` and no static keys. -/
def pDecRetriever : FileDecryptionProperties :=
  { footer_key := "", aad := "", column_keys := [], key_retriever := some retrieverM }

/-! ### Helper lemmas about the scans -/

/-- The uniform scan accepts a list exactly when every column key equals the
footer key. -/
theorem scanUniform_eq_allKeysEq (footer_key : String)
    (l : List ColumnEncryptionProperties) :
    scanUniform footer_key l = allKeysEq footer_key l := by
  induction l with
  | nil => rfl
  | cons c rest ih =>
    by_cases h : c.key = footer_key <;>
      simp [scanUniform, allKeysEq, h, ih, List.all_cons]

/-- Reading `allKeysEq` as a universally quantified statement. -/
theorem allKeysEq_eq_true_iff (footer_key : String)
    (l : List ColumnEncryptionProperties) :
    allKeysEq footer_key l = true ↔ ∀ col ∈ l, col.key = footer_key := by
  simp [allKeysEq, List.all_eq_true]

/-- Reading `allUnencrypted` as a universally quantified statement. -/
theorem allUnencrypted_eq_true_iff (l : List ColumnEncryptionProperties) :
    allUnencrypted l = true ↔ ∀ col ∈ l, col.encrypt = false := by
  simp [allUnencrypted, List.all_eq_true]

/-- A list containing an encrypted column with an empty key makes the
empty-footer-key scan fail with a configuration error. -/
theorem scanNoFooter_error_of_mem (l : List ColumnEncryptionProperties)
    (col : ColumnEncryptionProperties) (hmem : col ∈ l)
    (henc : col.encrypt = true) (hkey : col.key = "") :
    ∃ m, scanNoFooter l = .error (.InvalidConfiguration m) := by
  induction l with
  | nil => cases hmem
  | cons c rest ih =>
    rcases List.mem_cons.mp hmem with hc | hc
    · subst hc
      exact ⟨"Encrypt column with null footer key", by simp [scanNoFooter, henc, hkey]⟩
    · by_cases he : c.encrypt
      · by_cases hk : c.key = ""
        · exact ⟨"Encrypt column with null footer key", by simp [scanNoFooter, he, hk]⟩
        · obtain ⟨m, hm⟩ := ih hc
          exact ⟨m, by simp [scanNoFooter, he, hk, hm]⟩
      · obtain ⟨m, hm⟩ := ih hc
        exact ⟨m, by simp [scanNoFooter, he, hm]⟩

/-- A list of unencrypted columns passes the empty-footer-key scan and
reports that everything is unencrypted. -/
theorem scanNoFooter_of_allUnencrypted (l : List ColumnEncryptionProperties)
    (h : allUnencrypted l = true) : scanNoFooter l = .ok true := by
  induction l with
  | nil => rfl
  | cons c rest ih =>
    rw [allUnencrypted, List.all_cons] at h
    simp only [Bool.and_eq_true, Bool.not_eq_true'] at h
    rw [scanNoFooter, if_neg (by simp [h.1])]
    exact ih h.2

/-! ### Claim theorems -/

/-- Claim C1, counterexample. A policy with the non-empty footer key `k16` and
a single listed column spec whose key is unset (empty) comes out of
`SetupColumns` with `uniform_encryption = false`, although the claim states
that a spec whose key is unset keeps `uniform_encryption` true. -/
theorem claim_C1_counterexample :
    colFooterDeferred.key = "" ∧ pUniform.footer_encryption.key ≠ "" ∧
    uniformOf (SetupColumns pUniform [colFooterDeferred] true) = some false := by
  refine ⟨rfl, by decide, by decide⟩

/-- Claim C1 (amended): with a non-empty footer key, `SetupColumns` always
succeeds and caches `uniform_encryption` as the scan result, which is true
exactly when every listed column spec's key equals the footer key -- a spec
whose key is unset (empty) counts as a mismatch; the scan proceeds in input
order and stops at the first mismatch. -/
theorem claim_C1_uniform_detection (p : FileEncryptionProperties)
    (columns : List ColumnEncryptionProperties) (encrypt_the_rest : Bool)
    (h : p.footer_encryption.key ≠ "") :
    uniformOf (SetupColumns p columns encrypt_the_rest) =
      some (allKeysEq p.footer_encryption.key columns) := by
  rw [SetupColumns, if_pos h]
  simp [uniformOf, scanUniform_eq_allKeysEq]

/-- Claim C1, witness at a concrete input: footer key `k16`, one listed
column carrying `k16` itself. -/
theorem claim_C1_witness :
    pUniform.footer_encryption.key ≠ "" ∧
    uniformOf (SetupColumns pUniform [colWithFooterKey] true) =
      some (allKeysEq pUniform.footer_encryption.key [colWithFooterKey]) :=
  ⟨by decide, claim_C1_uniform_detection pUniform [colWithFooterKey] true (by decide)⟩

/-- Claim C4: with an empty footer key, `SetupColumns` with
`encrypt_the_rest = true` always fails with a configuration error, for any
list of column specs. -/
theorem claim_C4_encrypt_the_rest_needs_footer_key
    (p : FileEncryptionProperties) (columns : List ColumnEncryptionProperties)
    (h : p.footer_encryption.key = "") :
    isInvalidConfig (SetupColumns p columns true) = true := by
  rw [SetupColumns, if_neg (by simp [h]), if_pos rfl]
  rfl

/-- Claim C4, witness at a concrete input. -/
theorem claim_C4_witness :
    pEmptyFooter.footer_encryption.key = "" ∧
    isInvalidConfig (SetupColumns pEmptyFooter [] true) = true :=
  ⟨rfl, claim_C4_encrypt_the_rest_needs_footer_key pEmptyFooter [] rfl⟩

/-- Claim C5: with an empty footer key, a column list containing a spec that
is marked encrypted but has an empty key always makes `SetupColumns` fail
with a configuration error, whatever `encrypt_the_rest` is. -/
theorem claim_C5_encrypted_column_needs_key (p : FileEncryptionProperties)
    (columns : List ColumnEncryptionProperties) (encrypt_the_rest : Bool)
    (col : ColumnEncryptionProperties) (hf : p.footer_encryption.key = "")
    (hmem : col ∈ columns) (henc : col.encrypt = true) (hkey : col.key = "") :
    isInvalidConfig (SetupColumns p columns encrypt_the_rest) = true := by
  rw [SetupColumns, if_neg (by simp [hf])]
  cases encrypt_the_rest with
  | true => rfl
  | false =>
    obtain ⟨m, hm⟩ := scanNoFooter_error_of_mem columns col hmem henc hkey
    simp [hm, isInvalidConfig]

/-- Claim C5, witness at a concrete input: the listed column is encrypted and
defers to the (absent) footer key. -/
theorem claim_C5_witness :
    pEmptyFooter.footer_encryption.key = "" ∧ colFooterDeferred ∈ [colFooterDeferred] ∧
    colFooterDeferred.encrypt = true ∧ colFooterDeferred.key = "" ∧
    isInvalidConfig (SetupColumns pEmptyFooter [colFooterDeferred] false) = true :=
  ⟨rfl, by decide, rfl, rfl,
    claim_C5_encrypted_column_needs_key pEmptyFooter [colFooterDeferred] false
      colFooterDeferred rfl (by decide) rfl rfl⟩

/-- Claim C6, counterexample. With a non-empty footer key, a column list in
which every spec is unencrypted together with `encrypt_the_rest = false`
makes `SetupColumns` succeed (only the footer is encrypted), although the
claim states that this configuration always fails. -/
theorem claim_C6_counterexample :
    allUnencrypted [colPlain] = true ∧
    isOkE (SetupColumns pUniform [colPlain] false) = true := by
  refine ⟨by decide, by decide⟩

/-- Claim C6 (amended): for a policy whose footer key is empty, if every
column spec supplied to `SetupColumns` is unencrypted and
`encrypt_the_rest = false`, then `SetupColumns` fails with a configuration
error (nothing in the file would be encrypted). -/
theorem claim_C6_nothing_encrypted (p : FileEncryptionProperties)
    (columns : List ColumnEncryptionProperties)
    (hf : p.footer_encryption.key = "") (hall : allUnencrypted columns = true) :
    isInvalidConfig (SetupColumns p columns false) = true := by
  rw [SetupColumns, if_neg (by simp [hf]), if_neg (by simp),
      scanNoFooter_of_allUnencrypted columns hall]
  rfl

/-- Claim C6, witness at a concrete input. -/
theorem claim_C6_witness :
    pEmptyFooter.footer_encryption.key = "" ∧ allUnencrypted [colPlain] = true ∧
    isInvalidConfig (SetupColumns pEmptyFooter [colPlain] false) = true :=
  ⟨rfl, by decide, claim_C6_nothing_encrypted pEmptyFooter [colPlain] rfl (by decide)⟩

/-- Claim C2: `GetColumnEncryptionProperties` resolves a column's key
material: in uniform mode it is the policy's footer key material itself (the
stored field, shared rather than copied); in non-uniform mode a listed spec
yields material synthesised from the footer algorithm, the spec's key and
metadata and the footer AAD, an unlisted path yields the footer material when
`encrypt_the_rest` is set and no encryption (`none`) otherwise. -/
theorem claim_C2_column_key_resolution (p : FileEncryptionProperties)
    (path : String) :
    (p.uniform_encryption = true →
        GetColumnEncryptionProperties p path = some p.footer_encryption) ∧
    (p.uniform_encryption = false →
      ∀ col, p.columns.find? (fun col => col.path == path) = some col →
        GetColumnEncryptionProperties p path =
          some { algorithm := p.footer_encryption.algorithm, key := col.key,
                 key_metadata := col.key_metadata,
                 aad := p.footer_encryption.aad }) ∧
    (p.uniform_encryption = false →
      p.columns.find? (fun col => col.path == path) = none →
      p.encrypt_the_rest = true →
        GetColumnEncryptionProperties p path = some p.footer_encryption) ∧
    (p.uniform_encryption = false →
      p.columns.find? (fun col => col.path == path) = none →
      p.encrypt_the_rest = false →
        GetColumnEncryptionProperties p path = none) := by
  refine ⟨fun h1 => ?_, fun h1 col hcol => ?_, fun h1 hn he => ?_,
          fun h1 hn he => ?_⟩
  · simp [GetColumnEncryptionProperties, h1]
  · simp [GetColumnEncryptionProperties, h1, hcol]
  · simp [GetColumnEncryptionProperties, h1, hn, he]
  · simp [GetColumnEncryptionProperties, h1, hn, he]

/-- Claim C2, witness at a concrete input: the uniform policy hands out its
footer key material. -/
theorem claim_C2_witness :
    GetColumnEncryptionProperties pUniform "a" = some pUniform.footer_encryption :=
  (claim_C2_column_key_resolution pUniform "a").1 rfl

/-- Claim C3: `GetColumnCryptoMetaData` describes the column's on-disk
metadata: in uniform mode a footer-keyed encrypted spec for the path whether
or not the path is listed; in non-uniform mode the first listed spec with
that path verbatim, else a footer-keyed encrypted spec when
`encrypt_the_rest` is set, else an unencrypted spec for the path. -/
theorem claim_C3_crypto_metadata (p : FileEncryptionProperties)
    (path : String) :
    (p.uniform_encryption = true →
        GetColumnCryptoMetaData p path = ColumnEncryptionProperties.mkSpec true path ∧
        (GetColumnCryptoMetaData p path).encrypt = true ∧
        (GetColumnCryptoMetaData p path).encrypted_with_footer_key = true ∧
        (GetColumnCryptoMetaData p path).path = path) ∧
    (p.uniform_encryption = false →
      ∀ col, p.columns.find? (fun col => col.path == path) = some col →
        GetColumnCryptoMetaData p path = col) ∧
    (p.uniform_encryption = false →
      p.columns.find? (fun col => col.path == path) = none →
      p.encrypt_the_rest = true →
        GetColumnCryptoMetaData p path = ColumnEncryptionProperties.mkSpec true path) ∧
    (p.uniform_encryption = false →
      p.columns.find? (fun col => col.path == path) = none →
      p.encrypt_the_rest = false →
        GetColumnCryptoMetaData p path = ColumnEncryptionProperties.mkSpec false path ∧
        (GetColumnCryptoMetaData p path).encrypt = false ∧
        (GetColumnCryptoMetaData p path).path = path) := by
  refine ⟨fun h1 => ?_, fun h1 col hcol => ?_, fun h1 hn he => ?_,
          fun h1 hn he => ?_⟩
  · simp [GetColumnCryptoMetaData, ColumnEncryptionProperties.mkSpec, h1]
  · simp [GetColumnCryptoMetaData, h1, hcol]
  · simp [GetColumnCryptoMetaData, ColumnEncryptionProperties.mkSpec, h1, hn, he]
  · simp [GetColumnCryptoMetaData, ColumnEncryptionProperties.mkSpec, h1, hn, he]

/-- Claim C3, witness at a concrete input: the non-uniform policy returns its
listed spec verbatim for the listed path "a". -/
theorem claim_C3_witness :
    GetColumnCryptoMetaData pNonUniform "a" =
      { encrypt := true, path := "a", encrypted_with_footer_key := false,
        key := k16b, key_metadata := "mdA" } :=
  (claim_C3_crypto_metadata pNonUniform "a").2.1 rfl
    { encrypt := true, path := "a", encrypted_with_footer_key := false,
      key := k16b, key_metadata := "mdA" } (by decide)

/-- Claim C7: key resolution on the decryption side. `GetColumnKey` with
empty metadata consults the static path-to-key map and fails with
`KeyNotFound` when the path is absent; with non-empty metadata it fails with
`MissingKeyRetriever` when no retriever is configured and otherwise delegates
to the retriever, whose miss is `KeyRetrievalFailed`. `GetFooterKey` follows
the same two-path logic with the literal footer key in place of the static
map. -/
theorem claim_C7_key_resolution (p : FileDecryptionProperties)
    (path key_metadata : String) (r : String → Option String) (k : String) :
    (key_metadata = "" → List.lookup path p.column_keys = none →
        GetColumnKey p path key_metadata = .error .KeyNotFound) ∧
    (key_metadata = "" → List.lookup path p.column_keys = some k →
        GetColumnKey p path key_metadata = .ok k) ∧
    (key_metadata ≠ "" → p.key_retriever = none →
        GetColumnKey p path key_metadata = .error .MissingKeyRetriever) ∧
    (key_metadata ≠ "" → p.key_retriever = some r → r key_metadata = none →
        GetColumnKey p path key_metadata = .error .KeyRetrievalFailed) ∧
    (key_metadata ≠ "" → p.key_retriever = some r → r key_metadata = some k →
        GetColumnKey p path key_metadata = .ok k) ∧
    (key_metadata = "" → GetFooterKey p key_metadata = .ok p.footer_key) ∧
    (key_metadata ≠ "" → p.key_retriever = none →
        GetFooterKey p key_metadata = .error .MissingKeyRetriever) ∧
    (key_metadata ≠ "" → p.key_retriever = some r → r key_metadata = none →
        GetFooterKey p key_metadata = .error .KeyRetrievalFailed) ∧
    (key_metadata ≠ "" → p.key_retriever = some r → r key_metadata = some k →
        GetFooterKey p key_metadata = .ok k) := by
  refine ⟨fun h1 h2 => ?_, fun h1 h2 => ?_, fun h1 h2 => ?_, fun h1 h2 h3 => ?_,
          fun h1 h2 h3 => ?_, fun h1 => ?_, fun h1 h2 => ?_, fun h1 h2 h3 => ?_,
          fun h1 h2 h3 => ?_⟩
  · simp [GetColumnKey, h1, h2]
  · simp [GetColumnKey, h1, h2]
  · simp [GetColumnKey, h1, h2]
  · simp [GetColumnKey, h1, h2, h3]
  · simp [GetColumnKey, h1, h2, h3]
  · simp [GetFooterKey, h1]
  · simp [GetFooterKey, h1, h2]
  · simp [GetFooterKey, h1, h2, h3]
  · simp [GetFooterKey, h1, h2, h3]

/-- Claim C7, witness at a concrete input: a lookup with empty metadata and
no static entry for the path fails with `KeyNotFound`. -/
theorem claim_C7_witness :
    GetColumnKey pDecRetriever "a" "" = .error .KeyNotFound :=
  (claim_C7_key_resolution pDecRetriever "a" "" retrieverM k16b).1 rfl rfl

/-- Claim C8, evaluated at the failing input. The constructor's key-length
assertion (properties.h line 256) is unconditional, so an empty footer key is
rejected exactly like a non-empty key of invalid length, although the
adjacent metadata assertion (lines 257-259) is guarded by non-emptiness and
the rest of the class -- `uniform_encryption_ = !key.empty()` (line 262) and
the empty-footer-key branch of `SetupColumns` (lines 290-306) -- exists only
to support empty footer keys. The remaining conjuncts record the validations
that do behave as claimed: a non-empty key of length outside 16/24/32 is
rejected by construction and by column-key registration, and a footer key
metadata longer than 256 bytes is rejected. -/
theorem claim_C8_key_length_checks :
    isInvalidConfig (mkFileEncryptionProperties 0 "" "") = true ∧
    isInvalidConfig (mkFileEncryptionProperties 0 "0123456789" "") = true ∧
    isInvalidConfig (SetColumnKey pDecStatic "b" "0123456789") = true ∧
    isInvalidConfig (mkFileEncryptionProperties 0 k16
      (String.mk (List.replicate 257 'x'))) = true := by
  refine ⟨rfl, rfl, rfl, ?_⟩
  rw [mkFileEncryptionProperties, if_pos (by decide), if_neg ?_]
  · rfl
  · push_neg
    have hlen : (String.mk (List.replicate 257 'x')).length = 257 := by
      show (List.replicate 257 'x').length = 257
      rw [List.length_replicate]
    refine ⟨fun hcontra => ?_, by omega⟩
    rw [hcontra] at hlen
    simp at hlen

/-- Auxiliary: `Char.ofNat` round-trips through `Char.toNat` on byte
values. -/
theorem char_toNat_ofNat (n : Nat) (h : n < 256) : (Char.ofNat n).toNat = n := by
  have hv : Nat.isValidChar n := Or.inl (by omega)
  simp [Char.ofNat, Char.ofNatAux, Char.toNat, hv, UInt32.toNat,
        BitVec.toNat_ofNatLt]

/-- Claim C9: `SetEncryptionKey` fails with a configuration error when the
spec is not marked encrypted or the supplied key is empty (the source throws
before any field assignment, so a failing call produces no updated spec); on
success it clears `encrypted_with_footer_key` and stores the key and
metadata. The numeric key-id variant uses a four-byte blob that encodes the
id when the id is nonzero, and empty metadata when the id is zero. -/
theorem claim_C9_set_encryption_key (c : ColumnEncryptionProperties)
    (key key_metadata : String) (key_id : Nat) :
    (c.encrypt = false → isInvalidConfig (SetEncryptionKey c key key_metadata) = true) ∧
    (key = "" → isInvalidConfig (SetEncryptionKey c key key_metadata) = true) ∧
    (c.encrypt = true → key ≠ "" →
      SetEncryptionKey c key key_metadata =
        .ok { c with encrypted_with_footer_key := false, key := key,
                     key_metadata := key_metadata }) ∧
    (key_id ≠ 0 →
      SetEncryptionKeyId c key key_id = SetEncryptionKey c key (encodeKeyId key_id) ∧
      (encodeKeyId key_id).length = 4 ∧
      (key_id < 4294967296 → decodeKeyId (encodeKeyId key_id) = key_id)) ∧
    SetEncryptionKeyId c key 0 = SetEncryptionKey c key "" := by
  refine ⟨fun h => ?_, fun h => ?_, fun h1 h2 => ?_, fun h => ⟨?_, rfl, fun hlt => ?_⟩,
          by simp [SetEncryptionKeyId]⟩
  · simp [SetEncryptionKey, h, isInvalidConfig]
  · cases hc : c.encrypt <;> simp [SetEncryptionKey, hc, h, isInvalidConfig]
  · simp [SetEncryptionKey, h1, h2]
  · simp [SetEncryptionKeyId, h]
  · have e0 := char_toNat_ofNat (key_id % 256) (Nat.mod_lt _ (by omega))
    have e1 := char_toNat_ofNat (key_id / 256 % 256) (Nat.mod_lt _ (by omega))
    have e2 := char_toNat_ofNat (key_id / 65536 % 256) (Nat.mod_lt _ (by omega))
    have e3 := char_toNat_ofNat (key_id / 16777216 % 256) (Nat.mod_lt _ (by omega))
    simp [decodeKeyId, encodeKeyId, e0, e1, e2, e3]
    omega

/-- Claim C9, witness at a concrete input: keying an encrypted spec with a
non-empty key succeeds and clears `encrypted_with_footer_key`. -/
theorem claim_C9_witness :
    colFooterDeferred.encrypt = true ∧ k16 ≠ "" ∧
    SetEncryptionKey colFooterDeferred k16 "md" =
      .ok { colFooterDeferred with encrypted_with_footer_key := false,
                                   key := k16, key_metadata := "md" } :=
  ⟨rfl, by decide,
    (claim_C9_set_encryption_key colFooterDeferred k16 "md" 1).2.2.1 rfl (by decide)⟩

/-- Claim C10: a policy built by the validating constructor from a non-empty
footer key is classified uniform before `SetupColumns` is ever called
(`uniform_encryption_ = !key.empty()`), so in that pre-setup state every path
is reported footer-key-encrypted by `GetColumnCryptoMetaData` and resolved to
the footer key material by `GetColumnEncryptionProperties`. -/
theorem claim_C10_uniform_at_construction (algorithm : Nat)
    (key key_metadata : String) (p : FileEncryptionProperties) (path : String)
    (h : mkFileEncryptionProperties algorithm key key_metadata = .ok p)
    (hk : key ≠ "") :
    p.uniform_encryption = true ∧
    GetColumnCryptoMetaData p path = ColumnEncryptionProperties.mkSpec true path ∧
    GetColumnEncryptionProperties p path = some p.footer_encryption := by
  rw [mkFileEncryptionProperties] at h
  split at h
  · split at h
    · injection h with h'
      have hu : p.uniform_encryption = true := by
        rw [← h']
        simp [hk]
      exact ⟨hu, by simp [GetColumnCryptoMetaData, hu],
             by simp [GetColumnEncryptionProperties, hu]⟩
    · cases h
  · cases h

/-- Claim C10, witness at a concrete input: constructing from `k16` yields
exactly the `pUniform` state, on which path "b" is footer-key-encrypted. -/
theorem claim_C10_witness :
    mkFileEncryptionProperties 0 k16 "" = .ok pUniform ∧ k16 ≠ "" ∧
    (pUniform.uniform_encryption = true ∧
     GetColumnCryptoMetaData pUniform "b" = ColumnEncryptionProperties.mkSpec true "b" ∧
     GetColumnEncryptionProperties pUniform "b" = some pUniform.footer_encryption) :=
  ⟨by rfl, by decide,
    claim_C10_uniform_at_construction 0 k16 "" pUniform "b" (by rfl) (by decide)⟩

end Parquet
